import Mathlib

/-!
Shallow embedding of the job-orchestration and signal-relay pipeline of the
repository (backend_models.py, backend_workers.py, backend_routes_oracle.py,
oracle_service.py, backend_scraping_service.py), together with theorems
settling the frozen claims about it.

External collaborators (the database session, the web3 client, the HTTP
fetchers) are modelled by explicit state passing and by outcome parameters;
machine-level digests (SHA-256, keccak) are abstracted as injective tagging
functions, since only determinism and collision-freedom of the digest matter
to the claims.
-/

/-- Job lifecycle status: the closed value set of the jobs.status column
(backend_models.py line 104). -/
inductive JobStatus
  | pending
  | running
  | completed
  | failed
deriving DecidableEq, Repr

/-- Oracle signal status: the closed value set of the oracle_signals.status
column (backend_models.py line 128). -/
inductive SignalStatus
  | pending
  | sent
  | failed
deriving DecidableEq, Repr

/-- One column of a table schema as declared in backend_models.py:
its name, whether it carries a unique constraint, and whether it is indexed. -/
structure ColumnSpec where
  name : String
  unique : Bool
  indexed : Bool
deriving DecidableEq, Repr

/-- The raw_events table schema (backend_models.py lines 32-52): id is the
primary key; content_hash has index=True and the idx_raw_event_hash index but
no unique constraint. -/
def raw_events_columns : List ColumnSpec :=
  [⟨"id", true, true⟩,
   ⟨"source_id", false, true⟩,
   ⟨"platform", false, true⟩,
   ⟨"raw_json", false, false⟩,
   ⟨"content_hash", false, true⟩,
   ⟨"dedup_flag", false, false⟩,
   ⟨"fetched_at", false, true⟩]

/-- The oracle_signals table schema (backend_models.py lines 119-141):
analysis_result_id is a plain foreign key, neither unique nor indexed; only
status, severity and created_at are indexed. -/
def oracle_signals_columns : List ColumnSpec :=
  [⟨"id", true, true⟩,
   ⟨"analysis_result_id", false, false⟩,
   ⟨"severity", false, true⟩,
   ⟨"signal_type", false, false⟩,
   ⟨"payload", false, false⟩,
   ⟨"status", false, true⟩,
   ⟨"tx_hash", false, false⟩,
   ⟨"tx_status", false, false⟩,
   ⟨"created_at", false, true⟩,
   ⟨"sent_at", false, false⟩]

/-- Uniqueness flag of a named column of a table schema. -/
def column_unique (cols : List ColumnSpec) (n : String) : Option Bool :=
  (cols.find? (fun c => c.name == n)).map (fun c => c.unique)

/-- A payload dictionary (the JSON-like dicts the extraction services
produce) modelled as an association list of string keys and values. -/
abbrev PayloadDict := List (String × String)

/-- Python data.get(key): lookup of a key in a payload dictionary. -/
def dict_get (d : PayloadDict) (k : String) : Option String :=
  d.lookup k

/-- A row of the raw_events table, as constructed in process_scraping_job
(backend_workers.py lines 109-114). -/
structure RawEvent where
  source_id : Nat
  platform : String
  raw_json : PayloadDict
  content_hash : Option String
deriving DecidableEq, Repr

/-- A row of the sources table, restricted to the fields the workers read. -/
structure Source where
  type : String
  platform : Option String
deriving DecidableEq, Repr

/-- Input payload of an oracle_signal job (backend_routes_oracle.py
lines 163-166). -/
structure JobInput where
  oracle_signal_id : Nat
  analysis_result_id : Nat
deriving DecidableEq, Repr

/-- Output payload of a completed job, one shape per worker
(backend_workers.py lines 124-128, 207-210, 255). -/
inductive JobOutput
  | scrape (events_extracted : Nat) (new_events : Nat) (duplicates_filtered : Nat)
  | analysis (analyses_created : Nat)
  | oracle (signal_sent : Bool)
deriving DecidableEq, Repr

/-- A row of the jobs table (backend_models.py lines 98-117). -/
structure Job where
  id : Nat
  type : String
  status : JobStatus
  input_data : Option JobInput
  output_data : Option JobOutput
  progress : ℚ
  error_message : Option String
  started_at : Option Nat
  completed_at : Option Nat
deriving DecidableEq, Repr

/-- The except branch shared by all three workers (backend_workers.py
lines 133-138, 215-220, 258-263): mark the job failed with the captured
error text and a completion time. -/
def fail_job (j : Job) (t : Nat) (msg : String) : Job :=
  { j with status := .failed, error_message := some msg, completed_at := some t }

/-- The dedup insert loop of process_scraping_job (backend_workers.py
lines 100-117): for each extracted dict, query the store for an event with
the same content_hash and insert a new RawEvent only when none is found,
counting the inserts. Modelled from the spec: the session factory
(app.core.db, not under src) fixes whether the existence query sees rows
added earlier in the same run; the spec dedup gate sees every already-stored
Record, so the check here runs against the store as grown so far. -/
def store_raw_events (sid : Nat) (plat : String) :
    List PayloadDict → List RawEvent → List RawEvent × Nat
  | [], store => (store, 0)
  | data :: rest, store =>
    let h := dict_get data "content_hash"
    if store.any (fun e => e.content_hash == h) then
      store_raw_events sid plat rest store
    else
      let res := store_raw_events sid plat rest (store ++ [⟨sid, plat, data, h⟩])
      (res.1, res.2 + 1)

/-- Environment of one scraping-job execution: the source row looked up by
id, and the outcome of the external extraction call (a list of payload
dicts, or the text of the exception it raised). -/
structure ScrapeEnv where
  source : Option Source
  extraction : Except String (List PayloadDict)

/-- Result of one scraping-job execution: the updated job row, the updated
raw_events store, and the chronological list of values taken by the
job.status column (initial value followed by each assignment). -/
structure ScrapeRun where
  job : Option Job
  store : List RawEvent
  trace : List JobStatus
deriving DecidableEq, Repr

/-- process_scraping_job (backend_workers.py lines 65-141): look the job up
by id (silently return when absent), mark it running with started_at, look
the source up (absence raises, caught by the except branch), run the
extraction for web and social sources, insert the deduplicated events, and
complete the job with the events_extracted / new_events /
duplicates_filtered summary; any exception marks the job failed with the
captured message. t0 and t1 are the two datetime.utcnow() readings. -/
def process_scraping_job (t0 t1 : Nat) (env : ScrapeEnv) (source_id : Nat)
    (job : Option Job) (store : List RawEvent) : ScrapeRun :=
  match job with
  | none => ⟨none, store, []⟩
  | some j =>
    let j1 := { j with status := .running, started_at := some t0, progress := 0 }
    match env.source with
    | none =>
      ⟨some (fail_job j1 t1 ("Source " ++ toString source_id ++ " not found")),
       store, [j.status, .running, .failed]⟩
    | some src =>
      let ext : Except String (List PayloadDict) :=
        if src.type == "web" || src.type == "social" then env.extraction else .ok []
      match ext with
      | .error e =>
        ⟨some (fail_job j1 t1 e), store, [j.status, .running, .failed]⟩
      | .ok items =>
        let j2 := { j1 with progress := 0.5 }
        let res := store_raw_events source_id (src.platform.getD "web") items store
        let out : JobOutput := .scrape items.length res.2 (items.length - res.2)
        let j3 := { j2 with
          progress := 1, status := .completed, completed_at := some t1,
          output_data := some out }
        ⟨some j3, res.1, [j.status, .running, .completed]⟩

/-- Subsequence test on status lists, for the lifecycle claims. -/
def is_subseq : List JobStatus → List JobStatus → Bool
  | [], _ => true
  | _ :: _, [] => false
  | a :: l, b :: m => if a == b then is_subseq l m else is_subseq (a :: l) m

/-- Hashes of the stored raw events, in store order. -/
def store_hashes (store : List RawEvent) : List (Option String) :=
  store.map (fun e => e.content_hash)

/-- A row of the analysis_results table, restricted to the fields the oracle
side reads (backend_models.py lines 73-96); metrics is a JSON dict. -/
structure AnalysisResult where
  id : Nat
  dataset_id : Nat
  category : String
  metrics : PayloadDict
  quality_score : Option ℚ
  severity : String
deriving DecidableEq, Repr

/-- The payload stored on a new oracle signal (backend_routes_oracle.py
lines 144-151): dataset reference, category, quality score, and the first
five metrics. -/
structure SignalPayload where
  dataset_id : Nat
  category : String
  quality_score : Option ℚ
  metrics_summary : PayloadDict
deriving DecidableEq, Repr

/-- A row of the oracle_signals table (backend_models.py lines 119-141). -/
structure OracleSignal where
  id : Nat
  analysis_result_id : Nat
  severity : String
  signal_type : Option String
  payload : Option SignalPayload
  status : SignalStatus
  tx_hash : Option String
  tx_status : Option String
  sent_at : Option Nat
deriving DecidableEq, Repr

/-- The durable state the oracle routes and workers share: the
oracle_signals table and the jobs table. -/
structure PipelineState where
  signals : List OracleSignal
  jobs : List Job
deriving DecidableEq, Repr

/-- Result of one oracle-job execution: the updated job row and the
chronological list of values taken by the job.status column. -/
structure OracleJobRun where
  job : Option Job
  trace : List JobStatus
deriving DecidableEq, Repr

/-- process_oracle_job (backend_workers.py lines 225-266): look the job up
by id (silently return when absent), mark it running with started_at, look
the analysis result up (absence raises, caught by the except branch), and
complete the job with output signal_sent = ORACLE_ENABLED; the blockchain
send is a placeholder guarded by the flag and writes nothing else. The
function reads and writes no OracleSignal row. -/
def process_oracle_job (t0 t1 : Nat) (enabled : Bool)
    (analysis : Option AnalysisResult) (analysis_result_id : Nat)
    (job : Option Job) : OracleJobRun :=
  match job with
  | none => ⟨none, []⟩
  | some j =>
    let j1 := { j with status := .running, started_at := some t0 }
    match analysis with
    | none =>
      ⟨some (fail_job j1 t1
          ("Analysis result " ++ toString analysis_result_id ++ " not found")),
       [j.status, .running, .failed]⟩
    | some _ =>
      let j2 := { j1 with
        status := .completed, completed_at := some t1,
        output_data := some (.oracle enabled) }
      ⟨some j2, [j.status, .running, .completed]⟩

/-- process_oracle_job acting on the shared state: the job row with the
given id is replaced by the worker result; the signals table is untouched
because the worker never queries it. -/
def process_oracle_job_sys (t0 t1 : Nat) (enabled : Bool)
    (analyses : List AnalysisResult) (job_id analysis_result_id : Nat)
    (st : PipelineState) : PipelineState :=
  let job := st.jobs.find? (fun j => j.id == job_id)
  let analysis := analyses.find? (fun a => a.id == analysis_result_id)
  let run := process_oracle_job t0 t1 enabled analysis analysis_result_id job
  { st with jobs :=
      match run.job with
      | none => st.jobs
      | some j2 => st.jobs.map (fun j => if j.id == job_id then j2 else j) }

/-- Outcome of one web3 interaction inside OracleService.send_signal
(oracle_service.py lines 65-114): the client is uninitialized, some step of
prepare / build / sign / submit / wait raised (including a receipt timeout),
the receipt arrived with a failure status, or the receipt arrived with
status 1 carrying the transaction hash. -/
inductive LedgerOutcome
  | not_connected
  | step_exception (msg : String)
  | receipt_failed (h : String)
  | receipt_success (h : String)
deriving DecidableEq, Repr

/-- OracleService.send_signal (oracle_service.py lines 65-114): returns the
transaction hash only when the confirmation receipt reports status 1; an
uninitialized client, any exception, and a failed receipt all return None. -/
def send_signal : LedgerOutcome → Option String
  | .receipt_success h => some h
  | _ => none

/-- Environment of one monitor pass (oracle_service.py lines 195-239): the
web3 outcome per signal id, whether processing a signal raises outside
send_signal (the analysis query or the session commit), the
analysis_results table, and the current clock reading. -/
structure MonitorEnv where
  ledger : Nat → LedgerOutcome
  raises : Nat → Bool
  analyses : List AnalysisResult
  now : Nat

/-- Processing of one pending signal inside the monitor loop
(oracle_service.py lines 208-232): a signal whose analysis result is gone is
skipped; otherwise the signal is sent and on a hash the row becomes sent
with tx_hash, tx_status confirmed and sent_at, and on None it becomes
failed. -/
def monitor_signal_step (env : MonitorEnv) (s : OracleSignal) : OracleSignal :=
  match env.analyses.find? (fun a => a.id == s.analysis_result_id) with
  | none => s
  | some _ =>
    match send_signal (env.ledger s.id) with
    | some h =>
      { s with status := .sent, tx_hash := some h,
               tx_status := some "confirmed", sent_at := some env.now }
    | none => { s with status := .failed }

/-- Monitor eligibility filter (oracle_service.py lines 203-206): status
pending and severity high or critical. -/
def monitor_eligible (s : OracleSignal) : Bool :=
  s.status == .pending && (s.severity == "high" || s.severity == "critical")

/-- One monitor pass over the signals table, returning the updated table and
the ids whose processing was begun. The try block of monitor_and_send wraps
the whole pass, so an exception while processing one signal abandons the
rest of the pass: every later signal is left unchanged and unattempted. -/
def monitor_pass_go (env : MonitorEnv) :
    List OracleSignal → List OracleSignal × List Nat
  | [] => ([], [])
  | s :: rest =>
    if monitor_eligible s then
      if env.raises s.id then
        (s :: rest, [s.id])
      else
        let r := monitor_pass_go env rest
        (monitor_signal_step env s :: r.1, s.id :: r.2)
    else
      let r := monitor_pass_go env rest
      (s :: r.1, r.2)

/-- Signals table after one pass of monitor_and_send. -/
def monitor_pass (env : MonitorEnv) (signals : List OracleSignal) :
    List OracleSignal :=
  (monitor_pass_go env signals).1

/-- Ids of the signals whose processing was begun during one pass. -/
def monitor_attempted (env : MonitorEnv) (signals : List OracleSignal) :
    List Nat :=
  (monitor_pass_go env signals).2

/-- One monitor pass acting on the shared state: monitor_and_send
(oracle_service.py lines 186-239) queries and updates only OracleSignal
rows, never Job rows. -/
def monitor_pass_sys (env : MonitorEnv) (st : PipelineState) : PipelineState :=
  { st with signals := monitor_pass env st.signals }

/-- The enclosing while-True loop of monitor_and_send: each pass runs
whether or not the previous pass ended in a caught exception. -/
def monitor_loop (envs : List MonitorEnv) (signals : List OracleSignal) :
    List OracleSignal :=
  envs.foldl (fun st e => monitor_pass e st) signals

/-- The pending alert OracleSignal row constructed by create_oracle_signal
(backend_routes_oracle.py lines 140-153): alert payload carrying the
dataset reference, category, quality score and the first five metrics. -/
def new_oracle_signal (analysis : AnalysisResult)
    (analysis_result_id new_signal_id : Nat) : OracleSignal :=
  { id := new_signal_id, analysis_result_id := analysis_result_id,
    severity := analysis.severity, signal_type := some "alert",
    payload := some
      { dataset_id := analysis.dataset_id, category := analysis.category,
        quality_score := analysis.quality_score,
        metrics_summary := analysis.metrics.take 5 },
    status := .pending, tx_hash := none, tx_status := none,
    sent_at := none }

/-- The pending oracle_signal Job row constructed by create_oracle_signal
(backend_routes_oracle.py lines 160-167) and retry_oracle_signal (lines
221-228). -/
def new_oracle_job (oracle_signal_id analysis_result_id new_job_id : Nat) : Job :=
  { id := new_job_id, type := "oracle_signal", status := .pending,
    input_data := some ⟨oracle_signal_id, analysis_result_id⟩,
    output_data := none, progress := 0, error_message := none,
    started_at := none, completed_at := none }

/-- create_oracle_signal (backend_routes_oracle.py lines 94-183): reject
with 503 when the oracle is disabled, 404 when the analysis result is
absent, 400 when its severity is outside high/critical, 400 when a signal
for the analysis result already exists; otherwise insert a pending signal
with an alert payload, insert a pending oracle_signal job referencing it,
and enqueue the job. Errors carry the HTTP status code and leave the state
unchanged. -/
def create_oracle_signal (enabled : Bool) (analyses : List AnalysisResult)
    (analysis_result_id new_signal_id new_job_id : Nat)
    (st : PipelineState) : Except Nat (Nat × Nat) × PipelineState :=
  if !enabled then (.error 503, st)
  else
    match analyses.find? (fun a => a.id == analysis_result_id) with
    | none => (.error 404, st)
    | some analysis =>
      if !(analysis.severity == "high" || analysis.severity == "critical") then
        (.error 400, st)
      else if (st.signals.find?
          (fun s => s.analysis_result_id == analysis_result_id)).isSome then
        (.error 400, st)
      else
        let oracle_signal : OracleSignal :=
          new_oracle_signal analysis analysis_result_id new_signal_id
        let job : Job :=
          new_oracle_job new_signal_id analysis_result_id new_job_id
        (.ok (new_signal_id, new_job_id),
         { signals := st.signals ++ [oracle_signal], jobs := st.jobs ++ [job] })

/-- retry_oracle_signal (backend_routes_oracle.py lines 185-244): reject
with 503 when the oracle is disabled, 404 when the signal is absent, 400
when its status is neither failed nor pending; otherwise reset the signal to
pending with tx_hash, tx_status and sent_at cleared, then insert and enqueue
a fresh pending oracle_signal job referencing it. -/
def retry_oracle_signal (enabled : Bool) (signal_id new_job_id : Nat)
    (st : PipelineState) : Except Nat Nat × PipelineState :=
  if !enabled then (.error 503, st)
  else
    match st.signals.find? (fun s => s.id == signal_id) with
    | none => (.error 404, st)
    | some signal =>
      if !(signal.status == .failed || signal.status == .pending) then
        (.error 400, st)
      else
        let upd := fun (s : OracleSignal) =>
          if s.id == signal_id then
            { s with status := SignalStatus.pending, tx_hash := none,
                     tx_status := none, sent_at := none }
          else s
        let job : Job :=
          { id := new_job_id, type := "oracle_signal", status := .pending,
            input_data := some ⟨signal.id, signal.analysis_result_id⟩,
            output_data := none, progress := 0, error_message := none,
            started_at := none, completed_at := none }
        (.ok new_job_id,
         { signals := st.signals.map upd, jobs := st.jobs ++ [job] })

/-- The severity_map dict of OracleService.prepare_signal
(oracle_service.py lines 125-130). -/
def severity_map : List (String × Nat) :=
  [("low", 1), ("medium", 2), ("high", 3), ("critical", 4)]

/-- The wire payload assembled by OracleService.prepare_signal
(oracle_service.py lines 116-137). -/
structure PreparedSignal where
  analysis_id : Nat
  severity_level : Nat
  timestamp : Nat
  metrics_hash : String
deriving DecidableEq, Repr

/-- Python tuple comparison on (key, value) string pairs, as used by
sorted(data.items()). -/
def pair_le (a b : String × String) : Bool :=
  match compare a.1 b.1 with
  | .lt => true
  | .gt => false
  | .eq => compare a.2 b.2 != Ordering.gt

/-- Ordered insertion for the model of Python sorted. -/
def insert_pair (x : String × String) :
    List (String × String) → List (String × String)
  | [] => [x]
  | y :: ys => if pair_le x y then x :: y :: ys else y :: insert_pair x ys

/-- Python sorted(data.items()): the item list in ascending tuple order. -/
def py_sorted (l : PayloadDict) : PayloadDict :=
  l.foldr insert_pair []

/-- Python repr of one (key, value) item tuple. -/
def py_repr_pair (p : String × String) : String :=
  "(\x27" ++ p.1 ++ "\x27, \x27" ++ p.2 ++ "\x27)"

/-- Python str of a sorted item list, the digest input of generate_hash. -/
def py_repr_items (l : PayloadDict) : String :=
  "[" ++ String.intercalate ", " (l.map py_repr_pair) ++ "]"

/-- Abstract model of hashlib.sha256(s).hexdigest(): a deterministic digest,
treated as injective on its input string (collision freedom is the property
the dedup gate relies on); the source computes a real SHA-256 over the same
string. -/
def sha256_hexdigest (s : String) : String :=
  "sha256:" ++ s

/-- Abstract model of w3.keccak(text=s).hex(), injective like the digest it
abstracts. -/
def keccak_hex (s : String) : String :=
  "keccak:" ++ s

/-- ScrapingService.generate_hash (backend_scraping_service.py lines
197-200): the SHA-256 of str(sorted(data.items())) over the whole payload
dictionary handed to it. -/
def generate_hash (data : PayloadDict) : String :=
  sha256_hexdigest (py_repr_items (py_sorted data))

/-- Payload assembled by ScrapingService.fetch_web_page
(backend_scraping_service.py lines 28-56): the extracted fields plus url and
fetched_at, then content_hash computed by generate_hash over that whole
dictionary, url and fetched_at included. -/
def fetch_web_page_payload (extracted : PayloadDict)
    (url fetched_at : String) : PayloadDict :=
  let with_meta := extracted ++ [("url", url), ("fetched_at", fetched_at)]
  with_meta ++ [("content_hash", generate_hash with_meta)]

/-- Python json.dumps(metrics, sort_keys=True) on a flat string dict. -/
def json_dumps_sorted (metrics : PayloadDict) : String :=
  "\x7b" ++ String.intercalate ", "
    ((py_sorted metrics).map
      (fun p => "\"" ++ p.1 ++ "\": \"" ++ p.2 ++ "\"")) ++ "\x7d"

/-- OracleService.hash_metrics (oracle_service.py lines 139-142): keccak of
the key-sorted JSON dump when the client is initialized, else the empty
string. -/
def hash_metrics (w3_connected : Bool) (metrics : PayloadDict) : String :=
  if w3_connected then keccak_hex (json_dumps_sorted metrics) else ""

/-- OracleService.prepare_signal (oracle_service.py lines 116-137): map the
severity string through severity_map with default 1, and pack analysis id,
timestamp and metrics hash. -/
def prepare_signal (analysis_id : Nat) (severity : String)
    (metrics : PayloadDict) (ts : Nat) (w3_connected : Bool) : PreparedSignal :=
  { analysis_id := analysis_id,
    severity_level := (severity_map.lookup severity).getD 1,
    timestamp := ts,
    metrics_hash := hash_metrics w3_connected metrics }

/-- Fixture: a critical-severity analysis result. -/
def ex_analysis_hi : AnalysisResult :=
  ⟨7, 2, "sentiment", [("mentions", "12")], none, "critical"⟩

/-- Fixture: a low-severity analysis result. -/
def ex_analysis_low : AnalysisResult :=
  ⟨8, 2, "trend", [("slope", "0")], none, "low"⟩

/-- Fixture: a pending critical signal for ex_analysis_hi. -/
def ex_signal_pending : OracleSignal :=
  ⟨1, 7, "critical", some "alert", none, .pending, none, none, none⟩

/-- Fixture: a failed signal with a stale transaction hash. -/
def ex_signal_failed : OracleSignal :=
  ⟨2, 8, "high", some "alert", none, .failed, some "0xdead", some "failed", some 5⟩

/-- Fixture: a sent signal. -/
def ex_signal_sent : OracleSignal :=
  ⟨4, 9, "high", some "alert", none, .sent, some "0xbeef", some "confirmed", some 6⟩

/-- Fixture: a second pending high signal. -/
def ex_signal_pending2 : OracleSignal :=
  ⟨3, 9, "high", some "alert", none, .pending, none, none, none⟩

/-- Fixture: the pending relay job owning ex_signal_pending. -/
def ex_job_oracle : Job :=
  ⟨5, "oracle_signal", .pending, some ⟨1, 7⟩, none, 0, none, none, none⟩

/-- Fixture: a monitor environment whose ledger confirms every submission. -/
def ex_env_success : MonitorEnv :=
  ⟨fun _ => .receipt_success "0xabc", fun _ => false, [ex_analysis_hi], 42⟩

/-- Fixture: a monitor environment whose web3 client is uninitialized. -/
def ex_env_disconnected : MonitorEnv :=
  ⟨fun _ => .not_connected, fun _ => false, [ex_analysis_hi], 42⟩

/-- Fixture: a monitor environment that raises while processing signal 1. -/
def ex_env_raises1 : MonitorEnv :=
  ⟨fun _ => .receipt_success "0xabc", fun i => i == 1, [ex_analysis_hi], 42⟩

/-- Fixture: a third pending high signal. -/
def ex_signal_pending3 : OracleSignal :=
  ⟨6, 7, "high", some "alert", none, .pending, none, none, none⟩

/-- Fixture: a job already in the terminal status failed. -/
def ex_job_failed : Job :=
  ⟨1, "scrape", .failed, none, none, 1, some "boom", some 0, some 1⟩

/-- C10: for every severity string outside the known set, the wire payload
built by prepare_signal assigns severity_level 1, the same ordinal as the
severity low, rather than rejecting the input. -/
theorem C10_unknown_severity_level_one (sev : String)
    (h : sev ∉ ["low", "medium", "high", "critical"])
    (aid ts : Nat) (metrics : PayloadDict) (w3 : Bool) :
    (prepare_signal aid sev metrics ts w3).severity_level = 1 ∧
    (prepare_signal aid "low" metrics ts w3).severity_level = 1 := by
  simp only [List.mem_cons, List.not_mem_nil, or_false, not_or] at h
  obtain ⟨h1, h2, h3, h4⟩ := h
  have e1 : (sev == "low") = false := beq_eq_false_iff_ne.mpr h1
  have e2 : (sev == "medium") = false := beq_eq_false_iff_ne.mpr h2
  have e3 : (sev == "high") = false := beq_eq_false_iff_ne.mpr h3
  have e4 : (sev == "critical") = false := beq_eq_false_iff_ne.mpr h4
  constructor
  · simp [prepare_signal, severity_map, List.lookup, e1, e2, e3, e4]
  · rfl

/-- Witness for C10 at the unrecognized severity string severe. -/
theorem C10_unknown_severity_level_one_witness :
    ("severe" ∉ ["low", "medium", "high", "critical"]) ∧
    ((prepare_signal 7 "severe" [("a", "1")] 99 true).severity_level = 1 ∧
     (prepare_signal 7 "low" [("a", "1")] 99 true).severity_level = 1) :=
  ⟨by decide, C10_unknown_severity_level_one "severe" (by decide) 7 99 [("a", "1")] true⟩

/-- C7: the content_hash computed by fetch_web_page covers the whole payload
dictionary, the volatile fetched_at field included, so two fetches of
identical content that differ only in fetch time get different hashes,
against the stated property. -/
theorem C7_hash_covers_fetch_time :
    dict_get (fetch_web_page_payload [("title", "Example")]
        "http://example.com" "2024-01-01T00:00:00") "content_hash" ≠
    dict_get (fetch_web_page_payload [("title", "Example")]
        "http://example.com" "2024-01-02T00:00:00") "content_hash" := by
  decide

/-- C5: for an AnalysisResult whose severity is outside high/critical,
create_oracle_signal rejects with 400 and leaves the state unchanged; and in
general every signal in the resulting state either was already there or has
severity high or critical. -/
theorem C5_low_medium_no_signal
    (analyses : List AnalysisResult) (aid nsid njid : Nat)
    (st : PipelineState) (a : AnalysisResult)
    (hfound : analyses.find? (fun x => x.id == aid) = some a)
    (hsev : a.severity ≠ "high" ∧ a.severity ≠ "critical") :
    create_oracle_signal true analyses aid nsid njid st = (.error 400, st) ∧
    ∀ (en : Bool) (as2 : List AnalysisResult) (aid2 i j : Nat)
      (st2 : PipelineState),
      ∀ s ∈ (create_oracle_signal en as2 aid2 i j st2).2.signals,
        s ∈ st2.signals ∨ s.severity = "high" ∨ s.severity = "critical" := by
  constructor
  · have e1 : (a.severity == "high") = false := beq_eq_false_iff_ne.mpr hsev.1
    have e2 : (a.severity == "critical") = false := beq_eq_false_iff_ne.mpr hsev.2
    simp [create_oracle_signal, hfound, e1, e2]
  · intro en as2 aid2 i j st2 s hs
    simp only [create_oracle_signal] at hs
    split at hs
    · exact Or.inl hs
    · split at hs
      · exact Or.inl hs
      · rename_i a2 _
        split at hs
        · exact Or.inl hs
        · split at hs
          · exact Or.inl hs
          · rename_i hsevb _
            simp only [Bool.not_eq_true', Bool.not_eq_false, Bool.or_eq_true,
              beq_iff_eq] at hsevb
            simp only [List.mem_append, List.mem_singleton] at hs
            rcases hs with hs | hs
            · exact Or.inl hs
            · subst hs
              exact Or.inr hsevb

/-- Witness for C5 at a low-severity analysis result and the empty state. -/
theorem C5_low_medium_no_signal_witness :
    ([ex_analysis_low].find? (fun x => x.id == 8) = some ex_analysis_low ∧
     ex_analysis_low.severity ≠ "high" ∧ ex_analysis_low.severity ≠ "critical") ∧
    (create_oracle_signal true [ex_analysis_low] 8 1 2 ⟨[], []⟩ =
        (.error 400, ⟨[], []⟩) ∧
     ∀ (en : Bool) (as2 : List AnalysisResult) (aid2 i j : Nat)
       (st2 : PipelineState),
       ∀ s ∈ (create_oracle_signal en as2 aid2 i j st2).2.signals,
         s ∈ st2.signals ∨ s.severity = "high" ∨ s.severity = "critical") :=
  ⟨⟨by decide, by decide, by decide⟩,
   C5_low_medium_no_signal [ex_analysis_low] 8 1 2 ⟨[], []⟩ ex_analysis_low
     (by decide) ⟨by decide, by decide⟩⟩

/-- C6: with the oracle enabled and the signal present, retry succeeds
exactly for status failed or pending: on success the signal is reset to
pending with tx_hash, tx_status and sent_at cleared and a fresh pending
oracle_signal job is appended; a sent signal is rejected with 400 and the
state is unchanged. -/
theorem C6_retry_gate_and_reset (sid njid : Nat) (st : PipelineState)
    (s : OracleSignal)
    (hfound : st.signals.find? (fun x => x.id == sid) = some s) :
    ((s.status = .failed ∨ s.status = .pending) →
      (retry_oracle_signal true sid njid st).1 = .ok njid ∧
      (∀ x ∈ (retry_oracle_signal true sid njid st).2.signals, x.id = sid →
        x.status = .pending ∧ x.tx_hash = none ∧ x.tx_status = none ∧
        x.sent_at = none) ∧
      (retry_oracle_signal true sid njid st).2.jobs = st.jobs ++
        [{ id := njid, type := "oracle_signal", status := .pending,
           input_data := some ⟨s.id, s.analysis_result_id⟩,
           output_data := none, progress := 0, error_message := none,
           started_at := none, completed_at := none }]) ∧
    (s.status = .sent → retry_oracle_signal true sid njid st = (.error 400, st)) := by
  constructor
  · intro hst
    have hb : (s.status == SignalStatus.failed ||
        s.status == SignalStatus.pending) = true := by
      rcases hst with h | h <;> simp [h]
    have heq : retry_oracle_signal true sid njid st =
        (.ok njid,
         { signals := st.signals.map (fun y =>
             if y.id == sid then
               { y with status := SignalStatus.pending, tx_hash := none,
                        tx_status := none, sent_at := none }
             else y),
           jobs := st.jobs ++
             [{ id := njid, type := "oracle_signal", status := .pending,
                input_data := some ⟨s.id, s.analysis_result_id⟩,
                output_data := none, progress := 0, error_message := none,
                started_at := none, completed_at := none }] }) := by
      simp [retry_oracle_signal, hfound, hb]
    refine ⟨by rw [heq], ?_, by rw [heq]⟩
    intro x hx hxid
    rw [heq] at hx
    simp only [List.mem_map] at hx
    obtain ⟨y, _, hy⟩ := hx
    by_cases hyid : (y.id == sid) = true
    · rw [if_pos hyid] at hy
      subst hy
      exact ⟨rfl, rfl, rfl, rfl⟩
    · rw [if_neg hyid] at hy
      subst hy
      exact absurd (beq_iff_eq.mpr hxid) hyid
  · intro hst
    have hb : (s.status == SignalStatus.failed ||
        s.status == SignalStatus.pending) = false := by
      simp [hst]
    simp [retry_oracle_signal, hfound, hb]

/-- Witness for C6 at a state holding one failed signal. -/
theorem C6_retry_gate_and_reset_witness :
    (PipelineState.mk [ex_signal_failed] []).signals.find?
        (fun x => x.id == 2) = some ex_signal_failed ∧
    (((ex_signal_failed.status = .failed ∨ ex_signal_failed.status = .pending) →
      (retry_oracle_signal true 2 9 ⟨[ex_signal_failed], []⟩).1 = .ok 9 ∧
      (∀ x ∈ (retry_oracle_signal true 2 9 ⟨[ex_signal_failed], []⟩).2.signals,
        x.id = 2 →
        x.status = .pending ∧ x.tx_hash = none ∧ x.tx_status = none ∧
        x.sent_at = none) ∧
      (retry_oracle_signal true 2 9 ⟨[ex_signal_failed], []⟩).2.jobs = [] ++
        [{ id := 9, type := "oracle_signal", status := .pending,
           input_data := some ⟨ex_signal_failed.id,
             ex_signal_failed.analysis_result_id⟩,
           output_data := none, progress := 0, error_message := none,
           started_at := none, completed_at := none }]) ∧
     (ex_signal_failed.status = .sent →
      retry_oracle_signal true 2 9 ⟨[ex_signal_failed], []⟩ =
        (.error 400, ⟨[ex_signal_failed], []⟩))) :=
  ⟨by decide, C6_retry_gate_and_reset 2 9 ⟨[ex_signal_failed], []⟩
    ex_signal_failed (by decide)⟩

/-- C8 counterexample: with the oracle flag disabled, signal creation for a
qualifying (critical) analysis result does not occur: the request is
rejected with 503 and no Signal row is created, against the stated
still-occurs-for-audit behavior. -/
theorem C8_counterexample :
    create_oracle_signal false [ex_analysis_hi] 7 1 2 ⟨[], []⟩ =
      (.error 503, ⟨[], []⟩) ∧
    ex_analysis_hi.severity = "critical" ∧
    (create_oracle_signal false [ex_analysis_hi] 7 1 2 ⟨[], []⟩).2.signals = [] :=
  ⟨rfl, rfl, rfl⟩

/-- C8 amended: when the flag is disabled, signal creation is rejected with
503 and the state is unchanged; the relay worker short-circuits, completing
its job with output signal_sent false and touching no signal; the monitor
does not consult the flag, and with the web3 client uninitialized it marks a
processed pending signal failed rather than taking a disabled no-op. -/
theorem C8_disabled_behavior
    (analyses : List AnalysisResult) (aid nsid njid : Nat) (st : PipelineState)
    (t0 t1 : Nat) (j : Job) (a : AnalysisResult) (env : MonitorEnv)
    (s : OracleSignal)
    (hna : (env.analyses.find? (fun x => x.id == s.analysis_result_id)).isSome)
    (hl : env.ledger s.id = .not_connected) :
    create_oracle_signal false analyses aid nsid njid st = (.error 503, st) ∧
    (process_oracle_job t0 t1 false (some a) aid (some j)).job =
      some { j with status := .completed, started_at := some t0,
                    completed_at := some t1,
                    output_data := some (.oracle false) } ∧
    (process_oracle_job_sys t0 t1 false analyses njid aid st).signals =
      st.signals ∧
    monitor_signal_step env s = { s with status := .failed } := by
  refine ⟨rfl, rfl, rfl, ?_⟩
  obtain ⟨a2, ha2⟩ := Option.isSome_iff_exists.mp hna
  simp [monitor_signal_step, ha2, hl, send_signal]

/-- Witness for C8 amended at a disconnected environment and the pending
critical signal. -/
theorem C8_disabled_behavior_witness :
    ((ex_env_disconnected.analyses.find?
        (fun x => x.id == ex_signal_pending.analysis_result_id)).isSome ∧
     ex_env_disconnected.ledger ex_signal_pending.id = .not_connected) ∧
    (create_oracle_signal false [ex_analysis_hi] 7 1 2 ⟨[], []⟩ =
        (.error 503, ⟨[], []⟩) ∧
     (process_oracle_job 3 4 false (some ex_analysis_hi) 7
        (some ex_job_oracle)).job =
       some { ex_job_oracle with status := .completed, started_at := some 3,
                                 completed_at := some 4,
                                 output_data := some (.oracle false) } ∧
     (process_oracle_job_sys 3 4 false [ex_analysis_hi] 2 7
        ⟨[], []⟩).signals = (PipelineState.mk [] []).signals ∧
     monitor_signal_step ex_env_disconnected ex_signal_pending =
       { ex_signal_pending with status := .failed }) :=
  ⟨⟨by decide, by decide⟩,
   C8_disabled_behavior [ex_analysis_hi] 7 1 2 ⟨[], []⟩ 3 4 ex_job_oracle
     ex_analysis_hi ex_env_disconnected ex_signal_pending (by decide) (by decide)⟩

/-- C2 counterexample: the oracle_signals schema places no unique constraint
on the analysis-result reference, so uniqueness is not enforced at the
store. -/
theorem C2_counterexample :
    column_unique oracle_signals_columns "analysis_result_id" = some false :=
  rfl


/-- Helper: create_oracle_signal rejects with 400 and leaves the state
unchanged whenever a signal for the analysis result already exists. -/
theorem create_oracle_signal_existing
    (analyses : List AnalysisResult) (aid i j : Nat) (st : PipelineState)
    (a : AnalysisResult)
    (hfound : analyses.find? (fun x => x.id == aid) = some a)
    (hb : (a.severity == "high" || a.severity == "critical") = true)
    (hex : (st.signals.find?
      (fun s => s.analysis_result_id == aid)).isSome = true) :
    create_oracle_signal true analyses aid i j st = (.error 400, st) := by
  simp [create_oracle_signal, hfound, hb, hex]

/-- C2 amended: at most one Signal per AnalysisResult is enforced by the
application-level existence check of create_oracle_signal, not by a store
constraint: sequentially, a first invocation for a high/critical result with
no prior signal succeeds, and a second invocation for the same result is
rejected with 400, leaving exactly one signal row for that analysis
result. -/
theorem C2_app_level_idempotency
    (analyses : List AnalysisResult) (aid sid1 jid1 sid2 jid2 : Nat)
    (st : PipelineState) (a : AnalysisResult)
    (hfound : analyses.find? (fun x => x.id == aid) = some a)
    (hsev : a.severity = "high" ∨ a.severity = "critical")
    (hnone : st.signals.find? (fun s => s.analysis_result_id == aid) = none) :
    (create_oracle_signal true analyses aid sid1 jid1 st).1 = .ok (sid1, jid1) ∧
    create_oracle_signal true analyses aid sid2 jid2
        (create_oracle_signal true analyses aid sid1 jid1 st).2 =
      (.error 400, (create_oracle_signal true analyses aid sid1 jid1 st).2) ∧
    ((create_oracle_signal true analyses aid sid1 jid1 st).2.signals.filter
        (fun s => s.analysis_result_id == aid)).length = 1 := by
  have hb : (a.severity == "high" || a.severity == "critical") = true := by
    rcases hsev with h | h <;> simp [h]
  have hall := List.find?_eq_none.mp hnone
  have h2 : (create_oracle_signal true analyses aid sid1 jid1 st).2 =
      { signals := st.signals ++ [new_oracle_signal a aid sid1],
        jobs := st.jobs ++ [new_oracle_job sid1 aid jid1] } := by
    simp [create_oracle_signal, hfound, hb, hnone]
  have hex : (((st.signals ++ [new_oracle_signal a aid sid1]).find?
      (fun s => s.analysis_result_id == aid)).isSome) = true := by
    rw [List.find?_append, hnone]
    simp [new_oracle_signal, List.find?]
  refine ⟨?_, ?_, ?_⟩
  · simp [create_oracle_signal, hfound, hb, hnone]
  · rw [h2]
    exact create_oracle_signal_existing analyses aid sid2 jid2 _ a hfound hb hex
  · rw [h2]
    have hfil : st.signals.filter (fun s => s.analysis_result_id == aid) = [] :=
      List.filter_eq_nil_iff.mpr hall
    simp [List.filter_append, hfil, new_oracle_signal]

/-- Witness for C2 amended at the critical analysis result and the empty
state. -/
theorem C2_app_level_idempotency_witness :
    ([ex_analysis_hi].find? (fun x => x.id == 7) = some ex_analysis_hi ∧
     (ex_analysis_hi.severity = "high" ∨ ex_analysis_hi.severity = "critical") ∧
     (PipelineState.mk [] []).signals.find?
       (fun s => s.analysis_result_id == 7) = none) ∧
    ((create_oracle_signal true [ex_analysis_hi] 7 1 10 ⟨[], []⟩).1 =
        .ok (1, 10) ∧
     create_oracle_signal true [ex_analysis_hi] 7 2 11
         (create_oracle_signal true [ex_analysis_hi] 7 1 10 ⟨[], []⟩).2 =
       (.error 400, (create_oracle_signal true [ex_analysis_hi] 7 1 10
         ⟨[], []⟩).2) ∧
     ((create_oracle_signal true [ex_analysis_hi] 7 1 10
         ⟨[], []⟩).2.signals.filter
         (fun s => s.analysis_result_id == 7)).length = 1) :=
  ⟨⟨by decide, Or.inr (by decide), by decide⟩,
   C2_app_level_idempotency [ex_analysis_hi] 7 1 10 2 11 ⟨[], []⟩ ex_analysis_hi
     (by decide) (Or.inr (by decide)) (by decide)⟩

/-- Helper: appending one event appends its hash. -/
theorem store_hashes_append (store : List RawEvent) (e : RawEvent) :
    store_hashes (store ++ [e]) = store_hashes store ++ [e.content_hash] := by
  simp [store_hashes]

/-- Helper: the dedup loop only grows the store, so a hash present before a
run is present after it. -/
theorem mem_store_hashes_mono (sid : Nat) (plat : String)
    (items : List PayloadDict) (store : List RawEvent) (h0 : Option String)
    (h : h0 ∈ store_hashes store) :
    h0 ∈ store_hashes (store_raw_events sid plat items store).1 := by
  induction items generalizing store with
  | nil => exact h
  | cons d rest ih =>
    simp only [store_raw_events]
    split
    · exact ih store h
    · exact ih _ (by rw [store_hashes_append]; exact List.mem_append_left _ h)

/-- Helper: the dedup loop preserves distinctness of the stored hashes. -/
theorem store_raw_events_nodup (sid : Nat) (plat : String)
    (items : List PayloadDict) (store : List RawEvent)
    (h : (store_hashes store).Nodup) :
    (store_hashes (store_raw_events sid plat items store).1).Nodup := by
  induction items generalizing store with
  | nil => exact h
  | cons d rest ih =>
    simp only [store_raw_events]
    split
    · exact ih store h
    · rename_i hany
      apply ih
      rw [store_hashes_append, List.nodup_append]
      refine ⟨h, List.nodup_singleton _, ?_⟩
      intro x hx hx2
      simp only [List.mem_singleton] at hx2
      subst hx2
      obtain ⟨e, he, hee⟩ : ∃ e ∈ store, e.content_hash = dict_get d "content_hash" := by
        simpa [store_hashes] using hx
      exact hany (List.any_eq_true.mpr ⟨e, he, by simp [hee]⟩)

/-- Helper: a hash already stored is never inserted again by the dedup loop:
its multiplicity among the stored hashes is unchanged. -/
theorem store_raw_events_count (sid : Nat) (plat : String)
    (items : List PayloadDict) (store : List RawEvent) (h0 : Option String)
    (hmem : h0 ∈ store_hashes store) :
    (store_hashes (store_raw_events sid plat items store).1).count h0 =
      (store_hashes store).count h0 := by
  induction items generalizing store with
  | nil => rfl
  | cons d rest ih =>
    simp only [store_raw_events]
    split
    · exact ih store hmem
    · rename_i hany
      have hne : (RawEvent.content_hash ⟨sid, plat, d, dict_get d "content_hash"⟩
          == h0) = false := by
        apply beq_eq_false_iff_ne.mpr
        intro hcontra
        apply hany
        apply List.any_eq_true.mpr
        obtain ⟨e, he, hee⟩ : ∃ e ∈ store, e.content_hash = h0 := by
          simpa [store_hashes] using hmem
        exact ⟨e, he, by simp [hee, ← hcontra]⟩
      have hcnt : (store_hashes (store ++
          [⟨sid, plat, d, dict_get d "content_hash"⟩])).count h0 =
          (store_hashes store).count h0 := by
        rw [store_hashes_append, List.count_append, List.count_singleton]
        simp [hne]
      rw [ih _ (by rw [store_hashes_append]; exact List.mem_append_left _ hmem),
        hcnt]

/-- Helper: after the dedup loop every extracted hash is stored (it was
inserted now or already present). -/
theorem store_raw_events_present (sid : Nat) (plat : String)
    (items : List PayloadDict) (store : List RawEvent) :
    ∀ d ∈ items, dict_get d "content_hash" ∈
      store_hashes (store_raw_events sid plat items store).1 := by
  induction items generalizing store with
  | nil => intro d hd; exact absurd hd (List.not_mem_nil d)
  | cons d rest ih =>
    intro d2 hd2
    rcases List.mem_cons.mp hd2 with hd2 | hd2
    · subst hd2
      simp only [store_raw_events]
      split
      · rename_i hany
        obtain ⟨e, he, hee⟩ := List.any_eq_true.mp hany
        refine mem_store_hashes_mono sid plat rest store _ ?_
        have : e.content_hash = dict_get d2 "content_hash" := by
          simpa using hee
        rw [← this]
        exact List.mem_map_of_mem (fun x => x.content_hash) he
      · refine mem_store_hashes_mono sid plat rest _ _ ?_
        rw [store_hashes_append]
        exact List.mem_append_right _ (List.mem_singleton.mpr rfl)
    · simp only [store_raw_events]
      split
      · exact ih store d2 hd2
      · exact ih _ d2 hd2

/-- C1 counterexample: the raw_events schema places no unique constraint on
content_hash (it is only indexed), so the check-then-insert is not atomic at
the storage layer as the claim states; the dedup check in
process_scraping_job is an application-level query followed by an insert. -/
theorem C1_counterexample :
    column_unique raw_events_columns "content_hash" = some false :=
  rfl

/-- C1 amended: deduplication is an application-level check-then-insert in
process_scraping_job, with no storage-layer unique constraint on
content_hash: sequentially, when the stored hashes start distinct they stay
distinct (so of any records with equal hashes exactly one is stored), a hash
already stored is never inserted again, every extracted hash ends up stored,
and the worker run writes exactly the store computed by the dedup loop. -/
theorem C1_dedup_application_level (sid : Nat) (plat : String)
    (items : List PayloadDict) (store : List RawEvent)
    (hnd : (store_hashes store).Nodup) :
    (store_hashes (store_raw_events sid plat items store).1).Nodup ∧
    (∀ h0 ∈ store_hashes store,
      (store_hashes (store_raw_events sid plat items store).1).count h0 =
        (store_hashes store).count h0) ∧
    (∀ d ∈ items, dict_get d "content_hash" ∈
      store_hashes (store_raw_events sid plat items store).1) ∧
    (∀ (t0 t1 : Nat) (j : Job),
      (process_scraping_job t0 t1 ⟨some ⟨"web", none⟩, .ok items⟩ sid
        (some j) store).store = (store_raw_events sid "web" items store).1) ∧
    column_unique raw_events_columns "content_hash" = some false := by
  refine ⟨store_raw_events_nodup sid plat items store hnd,
    fun h0 hm => store_raw_events_count sid plat items store h0 hm,
    store_raw_events_present sid plat items store,
    fun t0 t1 j => rfl, rfl⟩

/-- Witness for C1 amended: two extracted records with equal hashes against
an empty store. -/
theorem C1_dedup_application_level_witness :
    ((store_hashes []).Nodup) ∧
    ((store_hashes (store_raw_events 1 "web"
        [[("content_hash", "h1")], [("content_hash", "h1")],
         [("content_hash", "h2")]] []).1).Nodup ∧
     (∀ h0 ∈ store_hashes [],
       (store_hashes (store_raw_events 1 "web"
         [[("content_hash", "h1")], [("content_hash", "h1")],
          [("content_hash", "h2")]] []).1).count h0 =
         (store_hashes []).count h0) ∧
     (∀ d ∈ [[("content_hash", "h1")], [("content_hash", "h1")],
         [("content_hash", "h2")]], dict_get d "content_hash" ∈
       store_hashes (store_raw_events 1 "web"
         [[("content_hash", "h1")], [("content_hash", "h1")],
          [("content_hash", "h2")]] []).1) ∧
     (∀ (t0 t1 : Nat) (j : Job),
       (process_scraping_job t0 t1
         ⟨some ⟨"web", none⟩, .ok [[("content_hash", "h1")],
           [("content_hash", "h1")], [("content_hash", "h2")]]⟩ 1
         (some j) []).store = (store_raw_events 1 "web"
           [[("content_hash", "h1")], [("content_hash", "h1")],
            [("content_hash", "h2")]] []).1) ∧
     column_unique raw_events_columns "content_hash" = some false) :=
  ⟨by decide,
   C1_dedup_application_level 1 "web"
     [[("content_hash", "h1")], [("content_hash", "h1")],
      [("content_hash", "h2")]] [] (by decide)⟩


/-- C4 counterexample: process_scraping_job run on a job whose status is the
terminal failed sets it running and then completed: the observed status
sequence (failed, running, completed) is a subsequence of neither allowed
chain, the job left its terminal status, and running was entered from a
non-pending status. -/
theorem C4_counterexample :
    is_subseq (process_scraping_job 10 11 ⟨some ⟨"web", none⟩, .ok []⟩ 1
      (some ex_job_failed) []).trace [.pending, .running, .completed] = false ∧
    is_subseq (process_scraping_job 10 11 ⟨some ⟨"web", none⟩, .ok []⟩ 1
      (some ex_job_failed) []).trace [.pending, .running, .failed] = false ∧
    ((process_scraping_job 10 11 ⟨some ⟨"web", none⟩, .ok []⟩ 1
      (some ex_job_failed) []).job).map Job.status = some JobStatus.completed ∧
    ex_job_failed.status = JobStatus.failed := by
  decide

/-- Helper: a scraping-worker run on a present job observes exactly the
statuses initial, running, and completed or failed. -/
theorem process_scraping_job_trace (t0 t1 : Nat) (env : ScrapeEnv)
    (sid : Nat) (j : Job) (store : List RawEvent) :
    (process_scraping_job t0 t1 env sid (some j) store).trace =
      [j.status, .running, .completed] ∨
    (process_scraping_job t0 t1 env sid (some j) store).trace =
      [j.status, .running, .failed] := by
  rcases env with ⟨osrc, ext⟩
  cases osrc with
  | none => right; rfl
  | some src =>
    by_cases hc : (src.type == "web" || src.type == "social") = true
    · cases ext with
      | error e =>
        right
        simp [process_scraping_job, hc]
      | ok items =>
        left
        simp [process_scraping_job, hc]
    · left
      simp only [Bool.not_eq_true] at hc
      simp [process_scraping_job, hc]

/-- Helper: an oracle-worker run on a present job observes exactly the
statuses initial, running, and completed or failed. -/
theorem process_oracle_job_trace (t0 t1 : Nat) (enabled : Bool)
    (analysis : Option AnalysisResult) (aid : Nat) (j : Job) :
    (process_oracle_job t0 t1 enabled analysis aid (some j)).trace =
      [j.status, .running, .completed] ∨
    (process_oracle_job t0 t1 enabled analysis aid (some j)).trace =
      [j.status, .running, .failed] := by
  cases analysis with
  | none => right; rfl
  | some a => left; rfl

/-- C4 amended: on a job whose initial status is pending, both the scraping
worker and the oracle worker observe a status sequence that is a subsequence
of (pending, running, completed) or of (pending, running, failed); the
workers set running unconditionally, however, so invoked on a job in a
terminal status they move it out of that status (see the counterexample). -/
theorem C4_pending_lifecycle (t0 t1 : Nat) (env : ScrapeEnv) (sid : Nat)
    (j : Job) (hp : j.status = .pending) (store : List RawEvent)
    (enabled : Bool) (analysis : Option AnalysisResult) (aid : Nat) :
    (is_subseq (process_scraping_job t0 t1 env sid (some j) store).trace
       [.pending, .running, .completed] = true ∨
     is_subseq (process_scraping_job t0 t1 env sid (some j) store).trace
       [.pending, .running, .failed] = true) ∧
    (is_subseq (process_oracle_job t0 t1 enabled analysis aid (some j)).trace
       [.pending, .running, .completed] = true ∨
     is_subseq (process_oracle_job t0 t1 enabled analysis aid (some j)).trace
       [.pending, .running, .failed] = true) := by
  constructor
  · rcases process_scraping_job_trace t0 t1 env sid j store with h | h <;>
      rw [h, hp]
    · left; decide
    · right; decide
  · rcases process_oracle_job_trace t0 t1 enabled analysis aid j with h | h <;>
      rw [h, hp]
    · left; decide
    · right; decide

/-- Witness for C4 amended at a pending job, a web source and a one-record
extraction. -/
theorem C4_pending_lifecycle_witness :
    ex_job_oracle.status = .pending ∧
    ((is_subseq (process_scraping_job 0 1
         ⟨some ⟨"web", none⟩, .ok [[("content_hash", "h1")]]⟩ 1
         (some ex_job_oracle) []).trace
        [.pending, .running, .completed] = true ∨
      is_subseq (process_scraping_job 0 1
         ⟨some ⟨"web", none⟩, .ok [[("content_hash", "h1")]]⟩ 1
         (some ex_job_oracle) []).trace
        [.pending, .running, .failed] = true) ∧
     (is_subseq (process_oracle_job 0 1 true (some ex_analysis_hi) 7
         (some ex_job_oracle)).trace
        [.pending, .running, .completed] = true ∨
      is_subseq (process_oracle_job 0 1 true (some ex_analysis_hi) 7
         (some ex_job_oracle)).trace
        [.pending, .running, .failed] = true)) :=
  ⟨by decide,
   C4_pending_lifecycle 0 1 ⟨some ⟨"web", none⟩, .ok [[("content_hash", "h1")]]⟩
     1 ex_job_oracle (by decide) [] true (some ex_analysis_hi) 7⟩

/-- C9 counterexample: in a pass over two pending high/critical signals
where processing the first raises, the second signal of the same pass is
never attempted and is left unchanged, against the stated
every-other-signal-still-attempted behavior. -/
theorem C9_counterexample :
    monitor_attempted ex_env_raises1 [ex_signal_pending, ex_signal_pending2] =
      [1] ∧
    3 ∉ monitor_attempted ex_env_raises1 [ex_signal_pending, ex_signal_pending2] ∧
    monitor_pass ex_env_raises1 [ex_signal_pending, ex_signal_pending2] =
      [ex_signal_pending, ex_signal_pending2] ∧
    monitor_eligible ex_signal_pending2 = true := by
  decide

/-- Helper: a pass in which no processing raises attempts exactly the
eligible signals. -/
theorem monitor_attempted_no_raise (env : MonitorEnv)
    (hnr : ∀ i, env.raises i = false) (sigs : List OracleSignal) :
    monitor_attempted env sigs =
      (sigs.filter monitor_eligible).map (fun s => s.id) := by
  induction sigs with
  | nil => rfl
  | cons s rest ih =>
    simp only [monitor_attempted, monitor_pass_go] at ih ⊢
    by_cases he : monitor_eligible s = true
    · simp [he, hnr s.id, List.filter_cons, ih]
    · simp only [Bool.not_eq_true] at he
      simp [he, List.filter_cons, ih]

/-- Helper: an exception at one eligible signal aborts the pass: earlier
eligible signals are processed and attempted, the raising signal is
attempted but unchanged, and every later signal is unattempted and
unchanged. -/
theorem monitor_pass_abort (env : MonitorEnv) (pre post : List OracleSignal)
    (bad : OracleSignal)
    (hpre : ∀ s ∈ pre, monitor_eligible s = true → env.raises s.id = false)
    (hbadE : monitor_eligible bad = true) (hbad : env.raises bad.id = true) :
    monitor_pass_go env (pre ++ bad :: post) =
      (pre.map (fun s =>
          if monitor_eligible s then monitor_signal_step env s else s) ++
        bad :: post,
       (pre.filter monitor_eligible).map (fun s => s.id) ++ [bad.id]) := by
  induction pre with
  | nil => simp [monitor_pass_go, hbadE, hbad]
  | cons s rest ih =>
    have hrest : ∀ x ∈ rest, monitor_eligible x = true → env.raises x.id = false :=
      fun x hx => hpre x (List.mem_cons_of_mem s hx)
    by_cases he : monitor_eligible s = true
    · have hnr := hpre s (List.mem_cons_self s rest) he
      simp [monitor_pass_go, he, hnr, ih hrest, List.filter_cons]
    · simp only [Bool.not_eq_true] at he
      simp [monitor_pass_go, he, ih hrest, List.filter_cons]

/-- C9 amended: an exception while processing one pending signal aborts the
remainder of that pass: eligible signals before the raiser are processed,
the raiser and all later signals are left unchanged and the later ones are
not attempted in that pass; the monitoring loop itself continues, and any
later pass whose processing does not raise attempts every still-eligible
later signal. -/
theorem C9_exception_aborts_pass (env : MonitorEnv)
    (pre post : List OracleSignal) (bad : OracleSignal)
    (hpre : ∀ s ∈ pre, monitor_eligible s = true → env.raises s.id = false)
    (hbadE : monitor_eligible bad = true) (hbad : env.raises bad.id = true) :
    monitor_pass env (pre ++ bad :: post) =
      pre.map (fun s =>
        if monitor_eligible s then monitor_signal_step env s else s) ++
      bad :: post ∧
    monitor_attempted env (pre ++ bad :: post) =
      (pre.filter monitor_eligible).map (fun s => s.id) ++ [bad.id] ∧
    ∀ env2 : MonitorEnv, (∀ i, env2.raises i = false) →
      ∀ s ∈ post, monitor_eligible s = true →
        s.id ∈ monitor_attempted env2 (monitor_pass env (pre ++ bad :: post)) := by
  have h := monitor_pass_abort env pre post bad hpre hbadE hbad
  refine ⟨by rw [monitor_pass, h], by rw [monitor_attempted, h], ?_⟩
  intro env2 hnr s hs hse
  rw [monitor_pass, h, monitor_attempted_no_raise env2 hnr]
  apply List.mem_map_of_mem
  apply List.mem_filter.mpr
  exact ⟨List.mem_append_right _ (List.mem_cons_of_mem bad hs), hse⟩

/-- Witness for C9 amended: one eligible signal before the raiser, one
after. -/
theorem C9_exception_aborts_pass_witness :
    ((∀ s ∈ [ex_signal_pending2], monitor_eligible s = true →
        ex_env_raises1.raises s.id = false) ∧
     monitor_eligible ex_signal_pending = true ∧
     ex_env_raises1.raises ex_signal_pending.id = true) ∧
    (monitor_pass ex_env_raises1
        ([ex_signal_pending2] ++ ex_signal_pending :: [ex_signal_pending3]) =
      [ex_signal_pending2].map (fun s =>
        if monitor_eligible s then monitor_signal_step ex_env_raises1 s else s) ++
      ex_signal_pending :: [ex_signal_pending3] ∧
     monitor_attempted ex_env_raises1
        ([ex_signal_pending2] ++ ex_signal_pending :: [ex_signal_pending3]) =
      ([ex_signal_pending2].filter monitor_eligible).map (fun s => s.id) ++
        [ex_signal_pending.id] ∧
     ∀ env2 : MonitorEnv, (∀ i, env2.raises i = false) →
       ∀ s ∈ [ex_signal_pending3], monitor_eligible s = true →
         s.id ∈ monitor_attempted env2 (monitor_pass ex_env_raises1
           ([ex_signal_pending2] ++ ex_signal_pending :: [ex_signal_pending3]))) :=
  ⟨⟨by decide, by decide, by decide⟩,
   C9_exception_aborts_pass ex_env_raises1 [ex_signal_pending2]
     [ex_signal_pending3] ex_signal_pending (by decide) (by decide) (by decide)⟩

/-- C3 counterexample: the monitor relays a pending critical signal to a
successful receipt, marking it sent with its tx hash, yet the owning relay
job is left pending (the monitor never touches jobs); conversely the queue
relay worker completes the owning job while leaving the signal pending and
hashless (it never touches signals). -/
theorem C3_counterexample :
    ((monitor_pass_sys ex_env_success
        ⟨[ex_signal_pending], [ex_job_oracle]⟩).signals.find?
        (fun s => s.id == 1)).map OracleSignal.status = some .sent ∧
    ((monitor_pass_sys ex_env_success
        ⟨[ex_signal_pending], [ex_job_oracle]⟩).signals.find?
        (fun s => s.id == 1)).map OracleSignal.tx_hash = some (some "0xabc") ∧
    ((monitor_pass_sys ex_env_success
        ⟨[ex_signal_pending], [ex_job_oracle]⟩).jobs.find?
        (fun j => j.id == 5)).map Job.status = some JobStatus.pending ∧
    JobStatus.pending ≠ JobStatus.completed ∧
    (process_oracle_job_sys 0 1 true [ex_analysis_hi] 5 7
       ⟨[ex_signal_pending], [ex_job_oracle]⟩).signals = [ex_signal_pending] ∧
    ((process_oracle_job_sys 0 1 true [ex_analysis_hi] 5 7
       ⟨[ex_signal_pending], [ex_job_oracle]⟩).jobs.find?
        (fun j => j.id == 5)).map Job.status = some JobStatus.completed ∧
    ex_signal_pending.status = SignalStatus.pending ∧
    ex_signal_pending.tx_hash = none := by
  decide

/-- C3 amended: the signal-side and job-side updates live in disjoint code
paths. In the monitor, a success receipt marks the signal sent with tx_hash,
tx_status confirmed and sent_at, and any other ledger outcome marks it
failed; the monitor updates no job. The queue relay worker completes its job
with output signal_sent = enabled (or fails it when the analysis is absent)
and updates no signal. -/
theorem C3_relay_updates_split
    (env : MonitorEnv) (s : OracleSignal) (txh : String) (st : PipelineState)
    (t0 t1 : Nat) (enabled : Bool) (analyses : List AnalysisResult)
    (jid aid : Nat) (a : AnalysisResult) (j : Job)
    (hfound : env.analyses.find? (fun x => x.id == s.analysis_result_id) =
      some a) :
    (env.ledger s.id = .receipt_success txh →
      monitor_signal_step env s =
        { s with status := .sent, tx_hash := some txh,
                 tx_status := some "confirmed", sent_at := some env.now }) ∧
    (send_signal (env.ledger s.id) = none →
      monitor_signal_step env s = { s with status := .failed }) ∧
    (monitor_pass_sys env st).jobs = st.jobs ∧
    (process_oracle_job_sys t0 t1 enabled analyses jid aid st).signals =
      st.signals ∧
    (process_oracle_job t0 t1 enabled (some a) aid (some j)).job =
      some { j with status := .completed, started_at := some t0,
                    completed_at := some t1,
                    output_data := some (.oracle enabled) } := by
  refine ⟨?_, ?_, rfl, rfl, rfl⟩
  · intro hl
    simp [monitor_signal_step, hfound, hl, send_signal]
  · intro hl
    simp [monitor_signal_step, hfound, hl]

/-- Witness for C3 amended at the confirming environment, the pending
critical signal and its owning relay job. -/
theorem C3_relay_updates_split_witness :
    ex_env_success.analyses.find?
        (fun x => x.id == ex_signal_pending.analysis_result_id) =
      some ex_analysis_hi ∧
    ((ex_env_success.ledger ex_signal_pending.id = .receipt_success "0xabc" →
      monitor_signal_step ex_env_success ex_signal_pending =
        { ex_signal_pending with
            status := .sent, tx_hash := some "0xabc",
            tx_status := some "confirmed", sent_at := some ex_env_success.now }) ∧
     (send_signal (ex_env_success.ledger ex_signal_pending.id) = none →
      monitor_signal_step ex_env_success ex_signal_pending =
        { ex_signal_pending with status := .failed }) ∧
     (monitor_pass_sys ex_env_success
        ⟨[ex_signal_pending], [ex_job_oracle]⟩).jobs =
       (PipelineState.mk [ex_signal_pending] [ex_job_oracle]).jobs ∧
     (process_oracle_job_sys 0 1 true [ex_analysis_hi] 5 7
        ⟨[ex_signal_pending], [ex_job_oracle]⟩).signals =
       (PipelineState.mk [ex_signal_pending] [ex_job_oracle]).signals ∧
     (process_oracle_job 0 1 true (some ex_analysis_hi) 7
        (some ex_job_oracle)).job =
       some { ex_job_oracle with
                status := .completed, started_at := some 0,
                completed_at := some 1,
                output_data := some (.oracle true) }) :=
  ⟨by decide,
   C3_relay_updates_split ex_env_success ex_signal_pending "0xabc"
     ⟨[ex_signal_pending], [ex_job_oracle]⟩ 0 1 true [ex_analysis_hi] 5 7
     ex_analysis_hi ex_job_oracle (by decide)⟩
